import Mathlib

/-
Verification of the inventory ledger and stock subsystem of the cadena-shop
repository, as a shallow embedding of the Python source:

  * app/models/inventory.py      (StockMovement.create_movement,
                                  StockAlert.create_or_update_alert)
  * app/public/routes.py         (checkout item loop)
  * app/api/orders.py            (create_order per-line stock check)
  * app/models.py                (Product)

Money amounts (SQL Numeric / Python Decimal) are modelled as Rat; SQL
Integer columns as Int; identifiers as Nat. Timestamps are irrelevant to
the verified properties and are modelled as `Option Nat` placeholders that
the embedded code never sets except where the source does.

The StockItem / Warehouse revision of app/models/inventory.py is imported
by several modules (app/api/orders.py, app/api/products.py, init_db.py)
but its defining file is not present under src/; where a claim depends on
it, the corresponding definitions are modelled from the spec and are
marked `Modelled from the spec:` in their doc comments.
-/

namespace CadenaShop

/-- Movement types of `StockMovementType` in app/models/inventory.py. -/
inductive StockMovementType
  | PURCHASE
  | SALE
  | ADJUSTMENT
  | RETURN
  | DAMAGE
  | TRANSFER
  | PRODUCTION
deriving DecidableEq, Repr

/-- The `Product` model of app/models.py restricted to the fields read or
written by the embedded inventory code (`stock` is an SQL Integer and may
in principle hold any integer; `min_stock` and `track_stock` come from the
extension fields used by the inventory module). -/
structure Product where
  id : Nat
  user_id : Nat
  stock : Int
  min_stock : Int
  cost_price : Option Rat
  track_stock : Bool
  price : Rat
deriving DecidableEq, Repr

/-- A row of the `stock_movements` table (`StockMovement` model in
app/models/inventory.py). -/
structure StockMovement where
  product_id : Nat
  user_id : Nat
  movement_type : StockMovementType
  quantity : Int
  stock_before : Int
  stock_after : Int
  unit_cost : Rat
  total_cost : Rat
  order_id : Option Nat
  order_item_id : Option Nat
  reference : Option String
  notes : Option String
  performed_by : String
deriving DecidableEq, Repr

/-- A row of the `stock_alerts` table (`StockAlert` model in
app/models/inventory.py). `status` is one of "active", "resolved",
"ignored"; `severity` one of "info", "warning", "critical". -/
structure StockAlert where
  product_id : Nat
  user_id : Nat
  status : String
  severity : String
  current_stock : Int
  min_stock : Int
  resolved_at : Option Nat
deriving DecidableEq, Repr

/-- Python-level failures surfaced by the embedded code. `NameError` is the
interpreter error raised when an unbound name is evaluated;
`InsufficientStockError` stands both for the exception of the spec and for
the 400 "Insufficient stock" response of app/api/orders.py;
`InvalidQuantityError` is the invalid-quantity failure of the spec. -/
inductive PyErr
  | NameError (n : String)
  | InsufficientStockError
  | InvalidQuantityError
deriving DecidableEq, Repr

/-- Global names bound in the module scope of app/models/inventory.py when
`StockMovement.create_movement` executes: the four imports (lines 5-8) and
the six module-level declarations. The Python builtins scope, searched
after module globals, binds no inventory-related name either; in
particular `current_user` is nowhere in the scope chain of this module. -/
def inventoryModuleScope : List String :=
  ["datetime", "db", "event", "Enum",
   "StockMovementType", "StockMovement", "StockAlert",
   "InventoryValuation", "extend_product_model", "InventoryReport"]

/-- Python truthiness chain `unit_cost or product.cost_price or 0`
(line 81 of app/models/inventory.py): `None` and `0` are falsy. -/
def pyOrCost (unit_cost cost_price : Option Rat) : Rat :=
  match unit_cost with
  | some c => if c ≠ 0 then c else
      match cost_price with
      | some d => if d ≠ 0 then d else 0
      | none => 0
  | none =>
      match cost_price with
      | some d => if d ≠ 0 then d else 0
      | none => 0

/-- First alert returned by
`StockAlert.query.filter_by(product_id=product.id, status='active').first()`
(lines 130-133 of app/models/inventory.py), over the alert table modelled
as a list in insertion order. -/
def findActiveAlert (pid : Nat) : List StockAlert → Option StockAlert
  | [] => none
  | a :: rest =>
      if a.product_id = pid ∧ a.status = "active" then some a
      else findActiveAlert pid rest

/-- Field updates applied to an existing active alert on the update path of
`StockAlert.create_or_update_alert` (lines 135-146): refresh
`current_stock` and `min_stock`, then set severity to critical when stock
is zero, warning when `stock <= min_stock * 0.5` (the comparison is exact
over the integers involved, so it is modelled as `2 * stock ≤ min_stock`),
and info otherwise. `status` and `resolved_at` are not touched. -/
def updatedAlertFields (p : Product) (a : StockAlert) : StockAlert :=
  { a with
    current_stock := p.stock
    min_stock := p.min_stock
    severity :=
      if p.stock = 0 then "critical"
      else if 2 * p.stock ≤ p.min_stock then "warning"
      else "info" }

/-- The new alert inserted on the create path of
`StockAlert.create_or_update_alert` (lines 147-156): status defaults to
"active", severity is critical when stock is zero and warning otherwise. -/
def newAlert (p : Product) : StockAlert :=
  { product_id := p.id
    user_id := p.user_id
    status := "active"
    severity := if p.stock = 0 then "critical" else "warning"
    current_stock := p.stock
    min_stock := p.min_stock
    resolved_at := none }

/-- Replace the first active alert for `pid` in the table by its updated
version, modelling the in-place mutation of the row found by the query. -/
def updateFirstActiveAlert (pid : Nat) (f : StockAlert → StockAlert) :
    List StockAlert → List StockAlert
  | [] => []
  | a :: rest =>
      if a.product_id = pid ∧ a.status = "active" then f a :: rest
      else a :: updateFirstActiveAlert pid f rest

/-- `StockAlert.create_or_update_alert` (lines 126-158 of
app/models/inventory.py): look up the first active alert for the product;
update it in place if found, otherwise insert a new one. Returns the new
alert table together with the alert the Python function returns. -/
def create_or_update_alert (alerts : List StockAlert) (p : Product) :
    List StockAlert × StockAlert :=
  match findActiveAlert p.id alerts with
  | some a =>
      (updateFirstActiveAlert p.id (updatedAlertFields p) alerts,
       updatedAlertFields p a)
  | none => (alerts ++ [newAlert p], newAlert p)

/-- The state touched by `StockMovement.create_movement`: the product row
being moved, the `stock_movements` table and the `stock_alerts` table,
both in insertion order. -/
structure InvState where
  product : Product
  movements : List StockMovement
  alerts : List StockAlert
deriving DecidableEq, Repr

/-- `StockMovement.create_movement` (lines 62-98 of
app/models/inventory.py). `scope` is the set of names resolvable from the
module scope chain (for the module as written it is
`inventoryModuleScope`); `cu_business_name` is the business name the bound
`current_user` would expose when the name resolves.

Control flow of the source, in order:
1. for SALE and DAMAGE a positive quantity is negated (lines 67-69);
2. the `StockMovement(...)` constructor call evaluates its keyword
   arguments; the `performed_by` argument (line 85) evaluates the free
   name `current_user`, which raises `NameError` unless the name is in
   scope — in that case nothing has been mutated yet;
3. `product.stock += quantity` (line 89);
4. if the new stock is at or below `min_stock`, the alert engine runs
   (lines 92-93);
5. the movement row is added to the session (line 95).

No availability check of any kind is performed before step 3. -/
def create_movement (scope : List String) (cu_business_name : String)
    (st : InvState) (movement_type : StockMovementType) (quantity : Int)
    (reference notes : Option String) (order_id order_item_id : Option Nat)
    (unit_cost : Option Rat) : Except PyErr (StockMovement × InvState) :=
  let q : Int :=
    if (movement_type = .SALE ∨ movement_type = .DAMAGE) ∧ 0 < quantity
    then -quantity else quantity
  if "current_user" ∈ scope then
    let uc : Rat := pyOrCost unit_cost st.product.cost_price
    let m : StockMovement :=
      { product_id := st.product.id
        user_id := st.product.user_id
        movement_type := movement_type
        quantity := q
        stock_before := st.product.stock
        stock_after := st.product.stock + q
        unit_cost := uc
        total_cost := uc * (q.natAbs : Rat)
        order_id := order_id
        order_item_id := order_item_id
        reference := reference
        notes := notes
        performed_by := cu_business_name }
    let p : Product := { st.product with stock := st.product.stock + q }
    let alerts : List StockAlert :=
      if p.stock ≤ p.min_stock then (create_or_update_alert st.alerts p).1
      else st.alerts
    .ok (m, { product := p, movements := st.movements ++ [m], alerts := alerts })
  else
    .error (.NameError "current_user")

/-- Sum of the signed quantities of all movements recorded for a product:
the replay of the ledger for that key (movements carry signed quantities
in this revision, so replaying is summing). -/
def replay (pid : Nat) (ms : List StockMovement) : Int :=
  (ms.filter (fun m => m.product_id == pid)).foldl (fun s m => s + m.quantity) 0

/-- A line of the session cart consumed by the checkout view of
app/public/routes.py (keys `id`, `quantity`, `price`). -/
structure CartItem where
  id : Nat
  quantity : Int
  price : Rat
deriving DecidableEq, Repr

/-- An `OrderItem` row as created by the checkout view: quantity,
`unit_price = product.price` and `subtotal = unit_price * quantity`
(`OrderItem.calculate_subtotal` in app/models.py). -/
structure OrderItemRow where
  product_id : Nat
  quantity : Int
  unit_price : Rat
  subtotal : Rat
deriving DecidableEq, Repr

/-- `Product.query.get(id)` over the product table modelled as a list. -/
def findProduct (ps : List Product) (pid : Nat) : Option Product :=
  ps.find? (fun p => p.id == pid)

/-- Write back a mutated product row (rows are keyed by `id`). -/
def updateProduct (ps : List Product) (p : Product) : List Product :=
  ps.map (fun q => if q.id == p.id then p else q)

/-- One iteration of the checkout item loop (lines 113-129 of
app/public/routes.py): load the product; if it exists and
`product.stock >= quantity`, create the order item, decrement
`product.stock` directly and add the subtotal to the running total;
otherwise skip the line silently — no error, no flag, no rollback. No
`StockMovement` row is created on either branch. -/
def checkout_step (acc : List Product × List OrderItemRow × Rat)
    (item : CartItem) : List Product × List OrderItemRow × Rat :=
  match findProduct acc.1 item.id with
  | some p =>
      if item.quantity ≤ p.stock then
        let oi : OrderItemRow :=
          { product_id := p.id
            quantity := item.quantity
            unit_price := p.price
            subtotal := p.price * (item.quantity : Rat) }
        (updateProduct acc.1 { p with stock := p.stock - item.quantity },
         acc.2.1 ++ [oi], acc.2.2 + oi.subtotal)
      else acc
  | none => acc

/-- The checkout item loop of app/public/routes.py over a whole cart,
returning the updated product table, the created order items and the
order total. The enclosing view always creates the Order row and commits,
whatever happened to the individual lines. -/
def checkout_items (ps : List Product) (cart : List CartItem) :
    List Product × List OrderItemRow × Rat :=
  cart.foldl checkout_step (ps, [], 0)

/-- The `Warehouse` model of the StockItem revision of
app/models/inventory.py, restricted to the fields read by
app/api/orders.py (the defining file is not under src/; the fields are
those named by the spec and by the query in the caller). -/
structure Warehouse where
  id : Nat
  user_id : Nat
  is_default : Bool
deriving DecidableEq, Repr

/-- The `StockItem` model of the StockItem revision of
app/models/inventory.py, restricted to the fields the claims touch
(the defining file is not under src/; fields follow the spec, with
quantities as Decimal since app/api/orders.py compares them to
`Decimal(str(item_data[quantity]))`). -/
structure StockItem where
  product_id : Nat
  warehouse_id : Nat
  quantity : Rat
  reserved_quantity : Rat
  average_cost : Rat
  last_cost : Rat
deriving DecidableEq, Repr

/-- Modelled from the spec: `available_quantity = quantity -
reserved_quantity` is a derived, never-stored value of StockItem (the
StockItem class itself is absent from src/). -/
def StockItem.available_quantity (si : StockItem) : Rat :=
  si.quantity - si.reserved_quantity

/-- Modelled from the spec: `StockItem.reserve(qty)` of the Reservation
Manager (absent from src/, called at app/api/orders.py line 255): qty must
be > 0; fails with `InsufficientStockError` if `qty > available_quantity`;
on success `reserved_quantity += qty` and no other field changes. -/
def StockItem.reserve (si : StockItem) (qty : Rat) :
    Except PyErr StockItem :=
  if qty ≤ 0 then .error .InvalidQuantityError
  else if si.available_quantity < qty then .error .InsufficientStockError
  else .ok { si with reserved_quantity := si.reserved_quantity + qty }

/-- Modelled from the spec: `StockItem.release(qty)` of the Reservation
Manager (absent from src/): decrement `reserved_quantity`, clamped to a
zero floor; over-release is tolerated, not raised. -/
def StockItem.release (si : StockItem) (qty : Rat) : StockItem :=
  { si with reserved_quantity := max 0 (si.reserved_quantity - qty) }

/-- Modelled from the spec: the `in` branch of the Movement Ledger apply
algorithm together with the Cost Engine (the StockItem revision of
app/models/inventory.py is absent from src/): `quantity += qty`; if
`unit_cost` is given, `average_cost = (quantity_before * average_cost_before
+ qty * unit_cost) / (quantity_before + qty)` with the zero-quantity-before
case guarded by setting `average_cost = unit_cost` directly, and
`last_cost = unit_cost`. -/
def StockItem.applyIn (si : StockItem) (qty : Rat) (unit_cost : Option Rat) :
    StockItem :=
  match unit_cost with
  | some uc =>
      { si with
        quantity := si.quantity + qty
        average_cost :=
          if si.quantity = 0 then uc
          else (si.quantity * si.average_cost + qty * uc) / (si.quantity + qty)
        last_cost := uc }
  | none => { si with quantity := si.quantity + qty }

/-- `Warehouse.query.filter_by(user_id=..., is_default=True).first()` as
issued by app/api/orders.py lines 236-239. -/
def findDefaultWarehouse (ws : List Warehouse) (uid : Nat) : Option Warehouse :=
  ws.find? (fun w => w.user_id == uid && w.is_default)

/-- `StockItem.query.filter_by(product_id=..., warehouse_id=...).first()`
as issued by app/api/orders.py lines 242-245. -/
def findStockItem (items : List StockItem) (pid wid : Nat) :
    Option StockItem :=
  items.find? (fun si => si.product_id == pid && si.warehouse_id == wid)

/-- Write back a mutated stock item row (keyed by product and warehouse). -/
def updateStockItem (items : List StockItem) (si : StockItem) :
    List StockItem :=
  items.map (fun x =>
    if x.product_id == si.product_id && x.warehouse_id == si.warehouse_id
    then si else x)

/-- The per-line stock check and reservation of `create_order`
(app/api/orders.py lines 232-255): when the product tracks stock and a
default warehouse exists, a missing stock item or
`available_quantity < quantity` rolls the order back and returns the 400
"Insufficient stock" response (modelled as `InsufficientStockError`);
otherwise `stock_item.reserve(quantity)` runs. When no default warehouse
exists, or the product does not track stock, no check is made and the
line succeeds. -/
def create_order_check_stock (ws : List Warehouse) (items : List StockItem)
    (p : Product) (qty : Rat) (uid : Nat) : Except PyErr (List StockItem) :=
  if p.track_stock then
    match findDefaultWarehouse ws uid with
    | some w =>
        match findStockItem items p.id w.id with
        | none => .error .InsufficientStockError
        | some si =>
            if si.available_quantity < qty then .error .InsufficientStockError
            else do
              let si2 ← si.reserve qty
              .ok (updateStockItem items si2)
    | none => .ok items
  else .ok items

/-- Two alert rows are compatible with the at-most-one-active-alert
discipline when they are not both active for the same product. -/
def ActiveDistinct (a b : StockAlert) : Prop :=
  a.status = "active" → b.status = "active" → a.product_id ≠ b.product_id

/-- The alert table holds at most one active alert per product — and hence
at most one per (product, warehouse, alert type) key, since this revision
keys alerts by product alone. -/
def AtMostOneActive (alerts : List StockAlert) : Prop :=
  alerts.Pairwise ActiveDistinct

/-- A concrete product row used by the evaluation theorems: five units on
hand, minimum stock zero. -/
def prodA : Product :=
  { id := 1, user_id := 7, stock := 5, min_stock := 0, cost_price := none,
    track_stock := true, price := 10 }

/-- State holding `prodA` with an empty ledger and no alerts. -/
def stateA : InvState := { product := prodA, movements := [], alerts := [] }

/-- A concrete product row with nothing on hand, used to grow a ledger
whose replay matches the stock from the start. -/
def prodZero : Product :=
  { id := 1, user_id := 7, stock := 0, min_stock := 0, cost_price := none,
    track_stock := true, price := 10 }

/-- State holding `prodZero` with an empty ledger and no alerts. -/
def stateZero : InvState := { product := prodZero, movements := [], alerts := [] }

/-- The movement row and state produced by receiving 10 units into
`stateZero` through `create_movement` run with `current_user` bound (as
the dashboard restock flow intends). -/
def purchase10 : StockMovement × InvState :=
  ((create_movement ["current_user"] "Sistema" stateZero .PURCHASE 10
      none none none none none).toOption).get rfl

/-- The movement row and state produced by selling 10 units out of
`stateA` (which holds only 5) through `create_movement` run with
`current_user` bound. -/
def sale10of5 : StockMovement × InvState :=
  ((create_movement ["current_user"] "Sistema" stateA .SALE 10
      none none none none none).toOption).get rfl

/-- A concrete product row in a recovered position: 15 on hand before the
inbound movement of the alert-lifecycle claim, minimum stock 20. -/
def prodC6 : Product :=
  { id := 2, user_id := 7, stock := 15, min_stock := 20, cost_price := none,
    track_stock := true, price := 10 }

/-- The unresolved low-stock alert standing against `prodC6`. -/
def alertC6 : StockAlert :=
  { product_id := 2, user_id := 7, status := "active", severity := "warning",
    current_stock := 15, min_stock := 20, resolved_at := none }

/-- State holding `prodC6` with its open alert. -/
def stateC6 : InvState :=
  { product := prodC6, movements := [], alerts := [alertC6] }

/-- A concrete product row sitting in the reorder band (8 on hand, minimum
stock 10) but above half of the minimum. -/
def prodC8 : Product :=
  { id := 3, user_id := 7, stock := 8, min_stock := 10, cost_price := none,
    track_stock := true, price := 10 }

/-- An existing active alert for `prodC8`, created by an earlier movement. -/
def alertC8 : StockAlert :=
  { product_id := 3, user_id := 7, status := "active", severity := "warning",
    current_stock := 5, min_stock := 10, resolved_at := none }

/-- A concrete default warehouse for the order-creation theorems. -/
def whA : Warehouse := { id := 2, user_id := 7, is_default := true }

/-- A concrete stock item holding 3 available units of `prodA` in `whA`. -/
def siA : StockItem :=
  { product_id := 1, warehouse_id := 2, quantity := 3, reserved_quantity := 0,
    average_cost := 0, last_cost := 0 }

/-- A stock item with nothing on hand, for the weighted-average-cost
worked example. -/
def emptyStockItem : StockItem :=
  { product_id := 1, warehouse_id := 1, quantity := 0, reserved_quantity := 0,
    average_cost := 0, last_cost := 0 }

/-- C9: every call to `StockMovement.create_movement`, whatever its
arguments, raises `NameError` before committing any state change, because
the `performed_by` keyword argument (line 85 of app/models/inventory.py)
evaluates the name `current_user`, which is neither imported nor bound
anywhere in the scope chain of that module; consequently no movement row
and no stock update can ever be produced through this operation. -/
theorem c9_create_movement_raises_NameError (cu : String) (st : InvState)
    (mt : StockMovementType) (q : Int) (ref notes : Option String)
    (oid oiid : Option Nat) (uc : Option Rat) :
    create_movement inventoryModuleScope cu st mt q ref notes oid oiid uc
      = .error (.NameError "current_user") := by
  have h : "current_user" ∉ inventoryModuleScope := by decide
  simp [create_movement, h]

/-- C10: every successful `create_movement` call (possible only when the
name `current_user` resolves) records a movement with
`stock_after = stock_before + quantity` for the signed quantity,
`stock_before` equal to the product stock at entry, leaves the product
stock equal to `stock_after`, and for SALE and DAMAGE movements the
signed quantity is never positive, so those movements never increase
stock. -/
theorem c10_movement_row_consistent (scope : List String) (cu : String)
    (st : InvState) (mt : StockMovementType) (q : Int)
    (ref notes : Option String) (oid oiid : Option Nat) (uc : Option Rat)
    (m : StockMovement) (st2 : InvState)
    (h : create_movement scope cu st mt q ref notes oid oiid uc = .ok (m, st2)) :
    m.stock_after = m.stock_before + m.quantity ∧
    m.stock_before = st.product.stock ∧
    st2.product.stock = m.stock_after ∧
    ((mt = .SALE ∨ mt = .DAMAGE) → m.quantity ≤ 0 ∧ m.stock_after ≤ m.stock_before) := by
  by_cases hs : "current_user" ∈ scope
  · simp only [create_movement, hs, if_true, Except.ok.injEq, Prod.mk.injEq] at h
    obtain ⟨hm, hst⟩ := h
    subst hm
    subst hst
    refine ⟨rfl, rfl, rfl, ?_⟩
    intro hmt
    dsimp only
    by_cases h0 : 0 < q
    · rw [if_pos ⟨hmt, h0⟩]
      constructor <;> omega
    · rw [if_neg (fun hc => h0 hc.2)]
      constructor <;> omega
  · simp [create_movement, hs] at h

/-- Witness for C10: the concrete sale of 10 units out of 5 recorded by
`sale10of5` satisfies all four recorded-row facts. -/
theorem c10_movement_row_consistent_witness :
    sale10of5.1.stock_after = sale10of5.1.stock_before + sale10of5.1.quantity ∧
    sale10of5.1.stock_before = stateA.product.stock ∧
    sale10of5.2.product.stock = sale10of5.1.stock_after ∧
    ((StockMovementType.SALE = StockMovementType.SALE ∨
      StockMovementType.SALE = StockMovementType.DAMAGE) →
      sale10of5.1.quantity ≤ 0 ∧
      sale10of5.1.stock_after ≤ sale10of5.1.stock_before) :=
  c10_movement_row_consistent ["current_user"] "Sistema" stateA .SALE 10
    none none none none none sale10of5.1 sale10of5.2 rfl

/-- C2 (failing evaluation): an outbound SALE of 10 units against a stock
of 5 does not raise `InsufficientStockError`. In the module as written the
call raises `NameError` (for every call, not only insufficient ones);
with `current_user` bound, the very same call succeeds with no
availability check at all: a movement row is recorded and the stock is
driven to -5. -/
theorem c2_sale_exceeding_stock_not_rejected :
    (create_movement inventoryModuleScope "Sistema" stateA .SALE 10
        none none none none none = .error (.NameError "current_user")) ∧
    ((create_movement ["current_user"] "Sistema" stateA .SALE 10
        none none none none none).map
      (fun r => (r.2.product.stock, r.2.movements.length,
                 r.1.stock_before, r.1.stock_after))
      = .ok (-5, 1, 5, -5)) :=
  ⟨rfl, rfl⟩

/-- C4 (failing evaluation): starting from a non-negative stock of 5, the
SALE of 10 units (with `current_user` bound so the call can complete)
leaves the product stock at -5: stock non-negativity is not preserved by
movement application. -/
theorem c4_sale_drives_stock_negative :
    0 ≤ stateA.product.stock ∧
    ((create_movement ["current_user"] "Sistema" stateA .SALE 10
        none none none none none).map (fun r => r.2.product.stock)
      = .ok (-5)) ∧
    (-5 : Int) < 0 :=
  ⟨by decide, rfl, by decide⟩

/-- C3 (failing evaluation): after receiving 10 units through the ledger
(stock 10 = replay of the one recorded movement), a public checkout of 2
units drops the stock to 8 and creates an order item but records no
movement, so the stored stock no longer equals the replay of the
movement history. -/
theorem c3_checkout_bypasses_ledger :
    purchase10.2.product.stock = replay 1 purchase10.2.movements ∧
    ((checkout_items [purchase10.2.product]
        [{ id := 1, quantity := 2, price := 10 }]).1.map Product.stock
      = [8]) ∧
    ((checkout_items [purchase10.2.product]
        [{ id := 1, quantity := 2, price := 10 }]).2.1.length = 1) ∧
    replay 1 purchase10.2.movements = 10 ∧
    (8 : Int) ≠ 10 :=
  ⟨rfl, rfl, rfl, rfl, by decide⟩

/-- C6 (failing evaluation): with an unresolved low-stock alert open
against a product at stock 15 (minimum 20), receiving 20 units lifts the
stock to 35 — the reorder condition no longer holds — yet the alert table
is returned untouched: the alert is still "active" and `resolved_at` is
still unset. No code path in app/models/inventory.py ever writes
`status = "resolved"` or sets `resolved_at`. -/
theorem c6_recovery_movement_leaves_alert_active :
    ((create_movement ["current_user"] "Sistema" stateC6 .PURCHASE 20
        none none none none none).map
      (fun r => (r.2.product.stock, r.2.alerts)) = .ok (35, [alertC6])) ∧
    alertC6.status = "active" ∧ alertC6.resolved_at = none :=
  ⟨rfl, rfl, rfl⟩

/-- C1 (counterexample): on the public checkout path
(app/public/routes.py), a cart line requesting 7 units of a product with
5 on hand does not fail with any insufficient-stock condition: the whole
checkout run completes normally — the line is silently skipped, no order
item is created, the products are returned unchanged, and the caller then
commits the order with no error of any kind surfaced. -/
theorem c1_checkout_insufficient_line_silent :
    checkout_items [prodA] [{ id := 1, quantity := 7, price := 10 }]
      = ([prodA], [], 0) :=
  rfl

/-- C1 (amended): the spec-modelled `reserve` fails with
`InsufficientStockError` on any shortfall and changes nothing, and on the
API order-creation path (app/api/orders.py) a tracked-stock line whose
quantity exceeds the available quantity at the default warehouse aborts
with the insufficient-stock condition (the 400 response), leaving every
stock item unchanged; the insufficiency is caught by the explicit
availability check issued before `reserve` is reached. -/
theorem c1_order_line_insufficient_stock (si : StockItem) (qty : Rat)
    (ws : List Warehouse) (items : List StockItem) (p : Product) (uid : Nat)
    (w : Warehouse) (si2 : StockItem)
    (hq : 0 < qty) (hins : si.available_quantity < qty)
    (hp : p.track_stock = true)
    (hw : findDefaultWarehouse ws uid = some w)
    (hsi : findStockItem items p.id w.id = some si2)
    (hins2 : si2.available_quantity < qty) :
    si.reserve qty = .error .InsufficientStockError ∧
    create_order_check_stock ws items p qty uid
      = .error .InsufficientStockError := by
  constructor
  · rw [StockItem.reserve, if_neg (not_le.mpr hq), if_pos hins]
  · simp only [create_order_check_stock, hp, if_true, hw, hsi]
    rw [if_pos hins2]

/-- Witness for C1: a request for 5 units against a stock item holding 3
available units triggers the insufficient-stock condition on both the
reservation and the order-creation path. -/
theorem c1_order_line_insufficient_stock_witness :
    siA.reserve 5 = .error .InsufficientStockError ∧
    create_order_check_stock [whA] [siA] prodA 5 7
      = .error .InsufficientStockError :=
  c1_order_line_insufficient_stock siA 5 [whA] [siA] prodA 7 whA siA
    (by norm_num)
    (by rw [StockItem.available_quantity]; norm_num [siA])
    rfl rfl rfl
    (by rw [StockItem.available_quantity]; norm_num [siA])

/-- C5: the spec-modelled Cost Engine (`in` branch of the apply
algorithm) re-blends the weighted average cost as
`(q0*c0 + qty*uc) / (q0 + qty)`, setting it to `uc` directly when the
prior quantity is zero, and always records `last_cost = uc`; on the worked
example, receiving 10 units at 2.00 into an empty item yields average
cost 2.00, a further 10 units at 4.00 yields average cost 3.00, and
`last_cost` is the most recent unit cost 4.00. -/
theorem c5_weighted_average_cost :
    (∀ si : StockItem, ∀ qty uc : Rat,
      (si.applyIn qty (some uc)).average_cost =
        (if si.quantity = 0 then uc
         else (si.quantity * si.average_cost + qty * uc) / (si.quantity + qty)) ∧
      (si.applyIn qty (some uc)).last_cost = uc ∧
      (si.applyIn qty (some uc)).quantity = si.quantity + qty) ∧
    (emptyStockItem.applyIn 10 (some 2)).average_cost = 2 ∧
    ((emptyStockItem.applyIn 10 (some 2)).applyIn 10 (some 4)).average_cost = 3 ∧
    ((emptyStockItem.applyIn 10 (some 2)).applyIn 10 (some 4)).last_cost = 4 := by
  refine ⟨fun si qty uc => ⟨rfl, rfl, rfl⟩, ?_, ?_, rfl⟩
  · simp [StockItem.applyIn, emptyStockItem]
  · simp [StockItem.applyIn, emptyStockItem]
    norm_num

/-- C8 (counterexample): on the update path of
`StockAlert.create_or_update_alert`, a product with 8 units on hand and
minimum stock 10 — quantity positive and inside the reorder band, where
the claim requires severity "warning" — has its existing active alert set
to severity "info", because the update path compares against
`min_stock * 0.5`, not against the reorder threshold itself. -/
theorem c8_update_path_severity_info :
    0 < prodC8.stock ∧ prodC8.stock ≤ prodC8.min_stock ∧
    (create_or_update_alert [alertC8] prodC8).2.severity = "info" ∧
    "info" ≠ "warning" :=
  ⟨by decide, by decide, rfl, by decide⟩

/-- C8 (amended): the severity assigned by
`StockAlert.create_or_update_alert` is, on the create path (no active
alert for the product), "critical" exactly when the stock is zero and
"warning" otherwise; on the update path (an active alert exists),
"critical" when the stock is zero, "warning" when the stock is at most
half the minimum stock, and "info" otherwise. -/
theorem c8_severity_by_path (alerts : List StockAlert) (p : Product) :
    (create_or_update_alert alerts p).2.severity =
      (match findActiveAlert p.id alerts with
       | some _ =>
           if p.stock = 0 then "critical"
           else if 2 * p.stock ≤ p.min_stock then "warning"
           else "info"
       | none => if p.stock = 0 then "critical" else "warning") := by
  rw [create_or_update_alert]
  cases h : findActiveAlert p.id alerts with
  | none => rfl
  | some a => rfl

/-- When the active-alert query returns nothing, no alert in the table is
active for that product. -/
theorem findActiveAlert_none_no_active {pid : Nat} {l : List StockAlert}
    (h : findActiveAlert pid l = none) :
    ∀ a ∈ l, a.status = "active" → a.product_id ≠ pid := by
  induction l with
  | nil => intro a ha; exact absurd ha (List.not_mem_nil a)
  | cons x rest ih =>
    rw [findActiveAlert] at h
    split at h
    · exact absurd h (Option.some_ne_none x)
    · rename_i hcond
      intro a ha hstat hpid
      rcases List.mem_cons.mp ha with rfl | hmem
      · exact hcond ⟨hpid, hstat⟩
      · exact ih h a hmem hstat hpid

/-- Every row of the updated alert table is either the update of a row of
the old table or a row of the old table itself. -/
theorem mem_updateFirstActiveAlert {pid : Nat} {f : StockAlert → StockAlert}
    {l : List StockAlert} {b : StockAlert}
    (hb : b ∈ updateFirstActiveAlert pid f l) :
    (∃ a ∈ l, b = f a) ∨ b ∈ l := by
  induction l with
  | nil => exact absurd hb (List.not_mem_nil b)
  | cons x rest ih =>
    rw [updateFirstActiveAlert] at hb
    split at hb
    · rcases List.mem_cons.mp hb with rfl | hmem
      · exact Or.inl ⟨x, List.mem_cons_self x rest, rfl⟩
      · exact Or.inr (List.mem_cons_of_mem x hmem)
    · rcases List.mem_cons.mp hb with rfl | hmem
      · exact Or.inr (List.mem_cons_self b rest)
      · rcases ih hmem with ⟨a, ha, rfl⟩ | hmem2
        · exact Or.inl ⟨a, List.mem_cons_of_mem x ha, rfl⟩
        · exact Or.inr (List.mem_cons_of_mem x hmem2)

/-- Updating the fields of the first active alert in place preserves the
at-most-one-active discipline, because the update path touches neither
`status` nor `product_id`. -/
theorem pairwise_updateFirstActiveAlert {pid : Nat} {p : Product}
    {l : List StockAlert} (h : l.Pairwise ActiveDistinct) :
    (updateFirstActiveAlert pid (updatedAlertFields p) l).Pairwise
      ActiveDistinct := by
  induction l with
  | nil => exact List.Pairwise.nil
  | cons x rest ih =>
    rcases List.pairwise_cons.mp h with ⟨hx, hrest⟩
    rw [updateFirstActiveAlert]
    split
    · refine List.pairwise_cons.mpr ⟨?_, hrest⟩
      intro b hb
      exact fun h1 h2 => hx b hb h1 h2
    · refine List.pairwise_cons.mpr ⟨?_, ih hrest⟩
      intro b hb
      rcases mem_updateFirstActiveAlert hb with ⟨a, ha, rfl⟩ | hmem
      · exact fun h1 h2 => hx a ha h1 h2
      · exact hx b hmem

/-- C7: the alert table holds at most one active alert per product — and
therefore at most one per (product, warehouse, alert type) key, since
alerts in this revision are keyed by product alone — and this discipline
is preserved both by `StockAlert.create_or_update_alert` (which updates
the existing active alert in place rather than inserting a second one)
and by every successful `StockMovement.create_movement` call (which
either leaves the alert table alone or runs the alert engine once). -/
theorem c7_at_most_one_active_alert :
    (∀ alerts p, AtMostOneActive alerts →
      AtMostOneActive (create_or_update_alert alerts p).1) ∧
    (∀ scope cu st mt q ref notes oid oiid uc m st2,
      AtMostOneActive st.alerts →
      create_movement scope cu st mt q ref notes oid oiid uc = .ok (m, st2) →
      AtMostOneActive st2.alerts) := by
  have hcore : ∀ alerts p, AtMostOneActive alerts →
      AtMostOneActive (create_or_update_alert alerts p).1 := by
    intro alerts p h
    rw [create_or_update_alert]
    cases hfind : findActiveAlert p.id alerts with
    | some a => exact pairwise_updateFirstActiveAlert h
    | none =>
      show (alerts ++ [newAlert p]).Pairwise ActiveDistinct
      rw [List.pairwise_append]
      refine ⟨h, by simp, ?_⟩
      intro a ha b hb
      rcases List.mem_singleton.mp hb with rfl
      intro hstat _
      exact findActiveAlert_none_no_active hfind a ha hstat
  refine ⟨hcore, ?_⟩
  intro scope cu st mt q ref notes oid oiid uc m st2 hinv h
  by_cases hs : "current_user" ∈ scope
  · simp only [create_movement, hs, if_true, Except.ok.injEq, Prod.mk.injEq] at h
    obtain ⟨-, hst⟩ := h
    subst hst
    dsimp only
    split <;> split <;> first
      | exact hcore _ _ hinv
      | exact hinv
  · simp [create_movement, hs] at h

/-- Witness for C7: starting from an empty alert table, both the alert
engine and a concrete successful movement leave the table with at most
one active alert per product. -/
theorem c7_at_most_one_active_alert_witness :
    AtMostOneActive (create_or_update_alert [] prodA).1 ∧
    AtMostOneActive sale10of5.2.alerts :=
  ⟨c7_at_most_one_active_alert.1 [] prodA List.Pairwise.nil,
   c7_at_most_one_active_alert.2 ["current_user"] "Sistema" stateA .SALE 10
     none none none none none sale10of5.1 sale10of5.2 List.Pairwise.nil rfl⟩

end CadenaShop
